import Mathlib

/-!
Shallow embedding of the todo/chat backend (FastAPI + SQLModel app under
`backend/app`): the todo store and its eight agent tools
(`services/todo_tools.py`), the tool executor and the agentic chat loop
(`services/ai_agent.py`), and the HTTP routers (`routers/todos.py`,
`routers/chat.py`).

Modelling conventions:
- The database is a value: the todo table is a `List Todo`, the
  conversation and message tables are `List Conversation` and
  `List MessageRec`.  Each committed mutation is a pure function from the
  old table value to the new one.
- `datetime.utcnow()` is modelled by an explicit `now : Nat` argument;
  `uuid4()` id generation by an explicit fresh-id argument.  UUID values
  are modelled as `Nat`.
- Python `UUID(identifier)` literal parsing (which raises `ValueError` on
  a non-UUID string) is modelled by `parseId`, a partial parse of the
  identifier string into an id value (decimal numerals standing in for
  the UUID literal syntax); none of the verified properties depend on
  the concrete literal syntax.
- String primitives that the Lean kernel cannot reduce (iterator-based
  `trim`, `split`, `toLower`, `toNat?`) are re-implemented over
  `String.data` with identical behavior (`pyStrip`, `pyWords`,
  `lowerChars`, `parseId`).
- SQL `title ILIKE '%ident%'` is modelled as case-insensitive substring
  containment of `ident` in `title` (wildcard characters inside the
  identifier are not modelled; no claim depends on them).
- The row object mutated through the ORM session is identified with the
  record value resolved from the table (primary-key identity).
-/

namespace TodoApp

/-- A single-quote character as a string (used in the tools' f-string
messages). -/
def sq : String := String.singleton (Char.ofNat 39)

/-- Row of the `todos` table (`models/todo.py`). -/
structure Todo where
  id : Nat
  title : String
  completed : Bool
  user_id : String
  created_at : Nat
  updated_at : Nat
deriving DecidableEq, Repr

/-- The `{id, title, completed}` (optionally with `created_at`) dict the
tools embed in their envelopes. -/
structure TodoView where
  id : Nat
  title : String
  completed : Bool
  created_at : Option Nat := none
deriving DecidableEq, Repr

/-- An `{id, title}` pair from the `matches` list of an ambiguous result. -/
structure MatchOut where
  id : Nat
  title : String
deriving DecidableEq, Repr

/-- The uniform outcome envelope every tool returns
(`todo_tools.py`: the result dicts). -/
structure Envelope where
  success : Bool
  message : String
  todo : Option TodoView := none
  todos : Option (List TodoView) := none
  /-- The `matches` key of the ambiguous-result dict. -/
  matchList : Option (List MatchOut) := none
  deleted_count : Option Nat := none
  total : Option Nat := none
deriving DecidableEq, Repr

/-- Checks that `pre` begins `l` (helper for substring containment). -/
def leadsWith : List Char → List Char → Bool
  | [], _ => true
  | _ :: _, [] => false
  | a :: as, b :: bs => a == b && leadsWith as bs

/-- `hasSub needle hay`: `needle` occurs contiguously inside `hay`. -/
def hasSub (needle : List Char) : List Char → Bool
  | [] => needle.isEmpty
  | b :: bs => leadsWith needle (b :: bs) || hasSub needle bs

/-- Lower-case a character list (kernel-computable `str.lower()`). -/
def lowerChars (cs : List Char) : List Char := cs.map Char.toLower

/-- Model of SQL `title ILIKE '%ident%'`: case-insensitive substring
containment of the identifier in the title. -/
def ciContains (title ident : String) : Bool :=
  hasSub (lowerChars ident.data) (lowerChars title.data)

/-- Decimal digit accumulator for `parseId`. -/
def parseDigits : List Char → Nat → Option Nat
  | [], acc => some acc
  | c :: cs, acc =>
    if c.isDigit then parseDigits cs (acc * 10 + (c.toNat - 48)) else none

/-- Model of `UUID(todo_identifier)` literal parsing: `some` iff the
identifier string is a valid id literal (decimal numerals stand in for
the UUID literal syntax). -/
def parseId (s : String) : Option Nat :=
  match s.data with
  | [] => none
  | cs => parseDigits cs 0

/-- Kernel-computable `str.strip()`: drop leading and trailing
whitespace. -/
def pyStrip (s : String) : String :=
  { data := ((s.data.dropWhile Char.isWhitespace).reverse.dropWhile
      Char.isWhitespace).reverse }

/-- Exact-id lookup scoped to the owner: the
`select(Todo).where(Todo.id == todo_id, Todo.user_id == user_id)` query,
guarded by the `UUID(...)` parse (`todo_tools.py` lines 111-119). -/
def idHit (st : List Todo) (uid ident : String) : Option Todo :=
  match parseId ident with
  | some i => st.find? (fun t => t.id == i && t.user_id == uid)
  | none => none

/-- The owner-scoped case-insensitive title search
(`Todo.title.ilike(f"%{todo_identifier}%")`, `todo_tools.py` lines 122-129). -/
def titleSearch (st : List Todo) (uid ident : String) : List Todo :=
  st.filter (fun t => t.user_id == uid && ciContains t.title ident)

/-- The three-way resolve outcome (spec section 4.1). -/
inductive ResolveOutcome where
  | NotFound
  | Resolved (t : Todo)
  | Ambiguous (ms : List Todo)
deriving DecidableEq, Repr

/-- The shared resolve algorithm inlined in each mutating tool
(`todo_tools.py` lines 111-144, identically repeated in
`uncomplete_todo_tool`, `delete_todo_tool`, `update_todo_tool`):
exact id first, otherwise title search with zero/one/many outcomes. -/
def resolveTodo (st : List Todo) (uid ident : String) : ResolveOutcome :=
  match idHit st uid ident with
  | some t => ResolveOutcome.Resolved t
  | none =>
    match titleSearch st uid ident with
    | [] => ResolveOutcome.NotFound
    | [t] => ResolveOutcome.Resolved t
    | ms => ResolveOutcome.Ambiguous ms

/-- Replace the resolved row `t0` by `t1` (the ORM in-place row update +
commit). -/
def replaceTodo (t0 t1 : Todo) (st : List Todo) : List Todo :=
  st.map (fun u => if u = t0 then t1 else u)

/-- The `matches` payload of an ambiguous result:
`[{"id": str(t.id), "title": t.title} for t in todos]`. -/
def matchesOf (ms : List Todo) : List MatchOut :=
  ms.map (fun t => { id := t.id, title := t.title })

/-- `f"No todo found matching '{todo_identifier}'"`. -/
def noMatchMsg (ident : String) : String :=
  "No todo found matching " ++ sq ++ ident ++ sq

/-- `f"Multiple todos match '{todo_identifier}'. Please be more specific."`. -/
def multiMsg (ident : String) : String :=
  "Multiple todos match " ++ sq ++ ident ++ sq ++ ". Please be more specific."

/-- The not-found envelope shared by the four mutating tools. -/
def notFoundEnv (ident : String) : Envelope :=
  { success := false, message := noMatchMsg ident }

/-- The ambiguous envelope shared by the four mutating tools. -/
def ambiguousEnv (ident : String) (ms : List Todo) : Envelope :=
  { success := false, message := multiMsg ident, matchList := some (matchesOf ms) }

/-- `create_todo_tool` (`todo_tools.py` lines 15-48): persists a new row
with the stripped title and `completed=False`; no validation. -/
def create_todo_tool (st : List Todo) (uid title : String) (now newId : Nat) :
    Envelope × List Todo :=
  let t : Todo :=
    { id := newId, title := pyStrip title, completed := false, user_id := uid,
      created_at := now, updated_at := now }
  ({ success := true,
     todo := some { id := t.id, title := t.title, completed := t.completed,
                    created_at := some t.created_at },
     message := "Created todo: " ++ sq ++ t.title ++ sq },
   st ++ [t])

/-- Insert into a list kept in `created_at`-descending order (model of
`order_by(Todo.created_at.desc())`). -/
def insertCreatedDesc (t : Todo) : List Todo → List Todo
  | [] => [t]
  | u :: us =>
    if u.created_at ≤ t.created_at then t :: u :: us
    else u :: insertCreatedDesc t us

/-- Sort newest-created first (`order_by(Todo.created_at.desc())`). -/
def sortCreatedDesc (l : List Todo) : List Todo :=
  l.foldr insertCreatedDesc []

/-- The `{id, title, completed, created_at}` dict used by list/search. -/
def fullView (t : Todo) : TodoView :=
  { id := t.id, title := t.title, completed := t.completed,
    created_at := some t.created_at }

/-- `list_todos_tool` (`todo_tools.py` lines 51-92). -/
def list_todos_tool (st : List Todo) (uid : String)
    (include_completed : Bool) : Envelope :=
  let l := sortCreatedDesc (st.filter
    (fun t => t.user_id == uid && (include_completed || !t.completed)))
  { success := true, todos := some (l.map fullView), total := some l.length,
    message := "Found " ++ toString l.length ++ " todo(s)" }

/-- `complete_todo_tool` (`todo_tools.py` lines 95-170). -/
def complete_todo_tool (st : List Todo) (uid ident : String) (now : Nat) :
    Envelope × List Todo :=
  match resolveTodo st uid ident with
  | ResolveOutcome.NotFound => (notFoundEnv ident, st)
  | ResolveOutcome.Ambiguous ms => (ambiguousEnv ident ms, st)
  | ResolveOutcome.Resolved t =>
    if t.completed then
      ({ success := true,
         message := "Todo " ++ sq ++ t.title ++ sq ++ " is already completed",
         todo := some { id := t.id, title := t.title, completed := true } }, st)
    else
      ({ success := true,
         message := "Marked " ++ sq ++ t.title ++ sq ++ " as completed",
         todo := some { id := t.id, title := t.title, completed := true } },
       replaceTodo t { t with completed := true, updated_at := now } st)

/-- `uncomplete_todo_tool` (`todo_tools.py` lines 173-248). -/
def uncomplete_todo_tool (st : List Todo) (uid ident : String) (now : Nat) :
    Envelope × List Todo :=
  match resolveTodo st uid ident with
  | ResolveOutcome.NotFound => (notFoundEnv ident, st)
  | ResolveOutcome.Ambiguous ms => (ambiguousEnv ident ms, st)
  | ResolveOutcome.Resolved t =>
    if !t.completed then
      ({ success := true,
         message := "Todo " ++ sq ++ t.title ++ sq ++ " is not completed yet",
         todo := some { id := t.id, title := t.title, completed := false } }, st)
    else
      ({ success := true,
         message := "Marked " ++ sq ++ t.title ++ sq ++ " as not completed",
         todo := some { id := t.id, title := t.title, completed := false } },
       replaceTodo t { t with completed := false, updated_at := now } st)

/-- `delete_todo_tool` (`todo_tools.py` lines 251-309). -/
def delete_todo_tool (st : List Todo) (uid ident : String) :
    Envelope × List Todo :=
  match resolveTodo st uid ident with
  | ResolveOutcome.NotFound => (notFoundEnv ident, st)
  | ResolveOutcome.Ambiguous ms => (ambiguousEnv ident ms, st)
  | ResolveOutcome.Resolved t =>
    ({ success := true, message := "Deleted todo: " ++ sq ++ t.title ++ sq },
     st.filter (fun u => !decide (u = t)))

/-- `delete_completed_todos_tool` (`todo_tools.py` lines 312-350). -/
def delete_completed_todos_tool (st : List Todo) (uid : String) :
    Envelope × List Todo :=
  let cs := st.filter (fun t => t.user_id == uid && t.completed)
  if cs.isEmpty then
    ({ success := true, message := "No completed todos to delete",
       deleted_count := some 0 }, st)
  else
    ({ success := true,
       message := "Deleted " ++ toString cs.length ++ " completed todo(s)",
       deleted_count := some cs.length },
     st.filter (fun t => !(t.user_id == uid && t.completed)))

/-- `update_todo_tool` (`todo_tools.py` lines 353-420): sets the stripped
new title (no validation) and bumps `updated_at`. -/
def update_todo_tool (st : List Todo) (uid ident new_title : String)
    (now : Nat) : Envelope × List Todo :=
  match resolveTodo st uid ident with
  | ResolveOutcome.NotFound => (notFoundEnv ident, st)
  | ResolveOutcome.Ambiguous ms => (ambiguousEnv ident ms, st)
  | ResolveOutcome.Resolved t =>
    ({ success := true,
       message := "Updated " ++ sq ++ t.title ++ sq ++ " to " ++ sq ++
         pyStrip new_title ++ sq,
       todo := some { id := t.id, title := pyStrip new_title,
                      completed := t.completed } },
     replaceTodo t { t with title := pyStrip new_title, updated_at := now } st)

/-- `search_todos_tool` (`todo_tools.py` lines 423-462). -/
def search_todos_tool (st : List Todo) (uid qry : String) : Envelope :=
  let l := sortCreatedDesc (st.filter
    (fun t => t.user_id == uid && ciContains t.title qry))
  { success := true, todos := some (l.map fullView), total := some l.length,
    message := "Found " ++ toString l.length ++ " todo(s) matching " ++
      sq ++ qry ++ sq }

/-! ### HTTP todo endpoints (`routers/todos.py`) -/

/-- `TodoCreate` pydantic validation (`schemas/todo.py` lines 6-8):
`min_length=1, max_length=500` on the raw (untrimmed) title. -/
def todoCreateValid (title : String) : Bool :=
  1 ≤ title.length && title.length ≤ 500

/-- `POST /todos` (`routers/todos.py` lines 30-44): pydantic validation on
the raw title, then persist the stripped title.  `Except.error s` is an
HTTP error with status `s` (422 = pydantic validation failure). -/
def create_todo_endpoint (st : List Todo) (uid title : String)
    (now newId : Nat) : Except Nat (Todo × List Todo) :=
  if todoCreateValid title then
    let t : Todo :=
      { id := newId, title := pyStrip title, completed := false, user_id := uid,
        created_at := now, updated_at := now }
    Except.ok (t, st ++ [t])
  else Except.error 422

/-- `GET /todos` (`routers/todos.py` lines 15-27). -/
def list_todos_endpoint (st : List Todo) (uid : String) : List Todo :=
  sortCreatedDesc (st.filter (fun t => t.user_id == uid))

/-- The owner-scoped primary-key lookup shared by the todo id endpoints:
`select(Todo).where(Todo.id == todo_id, Todo.user_id == user_id)`. -/
def findTodo (st : List Todo) (uid : String) (i : Nat) : Option Todo :=
  st.find? (fun t => t.id == i && t.user_id == uid)

/-- `GET /todos/{todo_id}` (`routers/todos.py` lines 47-65): 404 both when
the id does not exist and when it belongs to another owner. -/
def get_todo_endpoint (st : List Todo) (uid : String) (i : Nat) :
    Except Nat Todo :=
  match findTodo st uid i with
  | some t => Except.ok t
  | none => Except.error 404

/-- The optional fields of the `TodoUpdate` body (`schemas/todo.py`). -/
structure TodoUpdateBody where
  title : Option String := none
  completed : Option Bool := none
deriving DecidableEq, Repr

/-- `PUT /todos/{todo_id}` (`routers/todos.py` lines 68-96). -/
def update_todo_endpoint (st : List Todo) (uid : String) (i : Nat)
    (body : TodoUpdateBody) (now : Nat) : Except Nat (Todo × List Todo) :=
  match findTodo st uid i with
  | none => Except.error 404
  | some t =>
    let t1 := { t with title := (body.title.map pyStrip).getD t.title,
                       completed := body.completed.getD t.completed,
                       updated_at := now }
    Except.ok (t1, replaceTodo t t1 st)

/-- `DELETE /todos/{todo_id}` (`routers/todos.py` lines 99-118): 204 on
success, modelled by returning the new table. -/
def delete_todo_endpoint (st : List Todo) (uid : String) (i : Nat) :
    Except Nat (List Todo) :=
  match findTodo st uid i with
  | none => Except.error 404
  | some t => Except.ok (st.filter (fun u => !decide (u = t)))

/-! ### Conversations and messages (`models/conversation.py`,
`routers/chat.py`) -/

/-- Row of the `conversations` table. -/
structure Conversation where
  id : Nat
  user_id : String
  title : String
  created_at : Nat
  updated_at : Nat
deriving DecidableEq, Repr

/-- Row of the `messages` table.  `tool_calls` is the serialized
tool-call record (opaque here). -/
structure MessageRec where
  id : Nat
  conversation_id : Nat
  role : String
  content : String
  tool_calls : Option String := none
  created_at : Nat
deriving DecidableEq, Repr

/-- The owner-scoped conversation lookup shared by the chat endpoints:
`select(Conversation).where(Conversation.id == conversation_id,
Conversation.user_id == user_id)`. -/
def findConv (cs : List Conversation) (uid : String) (i : Nat) :
    Option Conversation :=
  cs.find? (fun c => c.id == i && c.user_id == uid)

/-- Messages of a conversation in creation order
(`order_by(Message.created_at.asc())`); the store keeps messages in
insertion order and `created_at` is nondecreasing, so a stable filter
models the ordered query. -/
def convHistory (ms : List MessageRec) (convId : Nat) : List MessageRec :=
  ms.filter (fun m => m.conversation_id == convId)

/-- `GET /conversations` (`routers/chat.py` lines 29-41) — owner-scoped
listing (ordering by `updated_at` elided: no claim depends on it). -/
def list_conversations_endpoint (cs : List Conversation) (uid : String) :
    List Conversation :=
  cs.filter (fun c => c.user_id == uid)

/-- `GET /conversations/{id}` (`routers/chat.py` lines 60-109): the
conversation and its ordered messages, 404 when absent or other-owned. -/
def get_conversation_endpoint (cs : List Conversation)
    (ms : List MessageRec) (uid : String) (i : Nat) :
    Except Nat (Conversation × List MessageRec) :=
  match findConv cs uid i with
  | none => Except.error 404
  | some c => Except.ok (c, convHistory ms i)

/-- `DELETE /conversations/{id}` (`routers/chat.py` lines 112-143):
deletes the messages first, then the conversation; 404 when absent or
other-owned. -/
def delete_conversation_endpoint (cs : List Conversation)
    (ms : List MessageRec) (uid : String) (i : Nat) :
    Except Nat (List Conversation × List MessageRec) :=
  match findConv cs uid i with
  | none => Except.error 404
  | some c =>
    Except.ok (cs.filter (fun u => !decide (u = c)),
               ms.filter (fun m => !(m.conversation_id == i)))

/-! ### Tool executor and agentic loop (`services/ai_agent.py`) -/

/-- A JSON argument value in a tool-call argument bag (the tools only
take string and boolean arguments). -/
inductive JVal where
  | s (v : String)
  | b (v : Bool)
deriving DecidableEq, Repr

/-- The parsed argument bag `arguments : dict`. -/
def ArgBag : Type := List (String × JVal)

instance : DecidableEq ArgBag := by
  unfold ArgBag
  exact inferInstance

instance : Repr ArgBag := by
  unfold ArgBag
  exact inferInstance

/-- Dict key lookup. -/
def getArg (args : ArgBag) (k : String) : Option JVal :=
  (args.find? (fun kv => kv.1 == k)).map (fun kv => kv.2)

/-- Python exceptions escaping `execute_tool`: `arguments[k]` raising
`KeyError`, or a non-string value raising on the subsequent string
operation (`AttributeError`). -/
inductive ExecErr where
  | keyErr (k : String)
  | typeErr (k : String)
deriving DecidableEq, Repr

/-- `arguments[k]` followed by use as a string: raises on a missing key
or a non-string value. -/
def getStrArg (args : ArgBag) (k : String) : Except ExecErr String :=
  match getArg args k with
  | some (JVal.s v) => Except.ok v
  | some (JVal.b _) => Except.error (ExecErr.typeErr k)
  | none => Except.error (ExecErr.keyErr k)

/-- `arguments.get(k, default)` used in a boolean position (Python
truthiness: a present string counts by non-emptiness, never raises). -/
def getToggleArg (args : ArgBag) (k : String) (dflt : Bool) : Bool :=
  match getArg args k with
  | some (JVal.b v) => v
  | some (JVal.s v) => !v.isEmpty
  | none => dflt

/-- The eight tool names of the catalog (`TOOLS` in `ai_agent.py`). -/
def knownTools : List String :=
  ["create_todo", "list_todos", "complete_todo", "uncomplete_todo",
   "delete_todo", "delete_completed_todos", "update_todo", "search_todos"]

/-- The unknown-tool envelope `{"success": False, "message": f"Unknown
tool: {tool_name}"}`. -/
def unknownToolEnv (name : String) : Envelope :=
  { success := false, message := "Unknown tool: " ++ name }

/-- `execute_tool` (`ai_agent.py` lines 194-221).  `ctr` supplies the
clock/fresh-id value for the call.  `Except.error` is a Python exception
escaping the executor. -/
def execute_tool (name : String) (args : ArgBag) (st : List Todo)
    (uid : String) (ctr : Nat) : Except ExecErr (Envelope × List Todo) :=
  if name == "create_todo" then do
    let title ← getStrArg args "title"
    Except.ok (create_todo_tool st uid title ctr ctr)
  else if name == "list_todos" then
    Except.ok (list_todos_tool st uid (getToggleArg args "include_completed" true), st)
  else if name == "complete_todo" then do
    let ident ← getStrArg args "todo_identifier"
    Except.ok (complete_todo_tool st uid ident ctr)
  else if name == "uncomplete_todo" then do
    let ident ← getStrArg args "todo_identifier"
    Except.ok (uncomplete_todo_tool st uid ident ctr)
  else if name == "delete_todo" then do
    let ident ← getStrArg args "todo_identifier"
    Except.ok (delete_todo_tool st uid ident)
  else if name == "delete_completed_todos" then
    Except.ok (delete_completed_todos_tool st uid)
  else if name == "update_todo" then do
    let ident ← getStrArg args "todo_identifier"
    let nt ← getStrArg args "new_title"
    Except.ok (update_todo_tool st uid ident nt ctr)
  else if name == "search_todos" then do
    let qry ← getStrArg args "query"
    Except.ok (search_todos_tool st uid qry, st)
  else
    Except.ok (unknownToolEnv name, st)

/-- One tool-call request from the model (`tc.id`, `tc.function.name`,
`tc.function.arguments`; the JSON decoding of the argument payload is
elided — both chat paths decode identically). -/
structure ToolCall where
  id : String
  name : String
  args : ArgBag
deriving DecidableEq, Repr

/-- One entry of the working message context sent to the model. -/
structure Msg where
  role : String
  content : String
  tool_calls : List ToolCall := []
  tool_call_id : Option String := none
deriving DecidableEq, Repr

/-- A model reply: optional text content plus tool-call requests
(`response.choices[0].message`).  Python treats `None` and `""` content,
and an empty tool-call list, as falsy. -/
structure Reply where
  content : Option String := none
  tool_calls : List ToolCall := []
deriving DecidableEq, Repr

/-- A deterministic LLM stub: `complete` answers a non-streaming call,
`streamFrags` gives the text fragments of a streaming call on the same
endpoint. -/
structure Model where
  complete : List Msg → Reply
  streamFrags : List Msg → List String

/-- Python truthiness of `assistant_message.content`. -/
def contentTruthy : Option String → Bool
  | some s => !s.isEmpty
  | none => false

/-- `assistant_message.content or ""`. -/
def contentOrEmpty (c : Option String) : String := c.getD ""

/-- The fixed fallback `"I'm sorry, I couldn't process that request."`. -/
def fallbackMsg : String :=
  "I" ++ sq ++ "m sorry, I couldn" ++ sq ++ "t process that request."

/-- `assistant_message.content or fallback`. -/
def contentOrFallback (c : Option String) : String :=
  if contentTruthy c then contentOrEmpty c else fallbackMsg

/-- One `{tool, arguments, result}` record of `tool_calls_made`. -/
structure ToolRecord where
  tool : String
  args : ArgBag
  result : Envelope
deriving DecidableEq, Repr

/-- `json.dumps(result)` — an injective serialization of the envelope,
used only as opaque tool-message content. -/
def encodeEnvelope (e : Envelope) : String := reprStr e

/-- The static system prompt (an opaque string parameter per spec
non-goals; its content is irrelevant to every verified property). -/
def SYSTEM_PROMPT : String := "system prompt"

/-- The initial working context: system prompt, the last 20 history
messages (role and content only), then the new user message
(`ai_agent.py` lines 242-250 and 336-344). -/
def initMsgs (userMsg : String) (history : List (String × String)) :
    List Msg :=
  { role := "system", content := SYSTEM_PROMPT } ::
    ((history.drop (history.length - 20)).map
      (fun rc => { role := rc.1, content := rc.2 })) ++
    [{ role := "user", content := userMsg }]

/-- Execute one model turn's tool calls sequentially, appending each
result to the context (`ai_agent.py` lines 284-302 / 374-383).  `ctr` is
incremented per executed call so later calls see fresh clock/id values. -/
def execCalls (uid : String) :
    List ToolCall → List Msg → List Todo → Nat → List ToolRecord →
    Except ExecErr (List Msg × List Todo × Nat × List ToolRecord)
  | [], msgs, st, ctr, recs => Except.ok (msgs, st, ctr, recs)
  | tc :: rest, msgs, st, ctr, recs => do
    let (env, st2) ← execute_tool tc.name tc.args st uid ctr
    execCalls uid rest
      (msgs ++ [{ role := "tool", content := encodeEnvelope env,
                  tool_call_id := some tc.id }])
      st2 (ctr + 1)
      (recs ++ [{ tool := tc.name, args := tc.args, result := env }])

/-- The `while assistant_message.tool_calls:` loop shared verbatim by the
buffered and streaming paths (`ai_agent.py` lines 265-312 / 357-392).
The source imposes no iteration cap; `fuel` cuts the unbounded loop,
`Except.ok none` marking the runs the source would continue. -/
def agentLoop (m : Model) (uid : String) :
    Nat → List Msg → Reply → List Todo → Nat → List ToolRecord →
    Except ExecErr (Option (Reply × List Msg × List Todo × List ToolRecord))
  | fuel, msgs, reply, st, ctr, recs =>
    match reply.tool_calls with
    | [] => Except.ok (some (reply, msgs, st, recs))
    | tcs =>
      match fuel with
      | 0 => Except.ok none
      | Nat.succ f => do
        let msgs1 := msgs ++
          [{ role := "assistant", content := contentOrEmpty reply.content,
             tool_calls := tcs }]
        let (msgs2, st2, ctr2, recs2) ← execCalls uid tcs msgs1 st ctr recs
        agentLoop m uid f msgs2 (m.complete msgs2) st2 ctr2 recs2

/-- `chat_with_agent` (`ai_agent.py` lines 224-315): the buffered path;
returns the final text (with empty content replaced by the fallback) and
the executed tool-call records. -/
def chat_with_agent (m : Model) (fuel : Nat) (userMsg : String)
    (history : List (String × String)) (st : List Todo) (uid : String)
    (ctr : Nat) :
    Except ExecErr (Option (String × List ToolRecord × List Todo)) := do
  let msgs := initMsgs userMsg history
  let r ← agentLoop m uid fuel msgs (m.complete msgs) st ctr []
  match r with
  | none => Except.ok none
  | some (finalReply, _, st2, recs) =>
    Except.ok (some (contentOrFallback finalReply.content, recs, st2))

/-- `chat_with_agent_stream` (`ai_agent.py` lines 318-408): the same
loop, then — after issuing one extra streaming model call on the context
extended with the final assistant content — either the final content as
a single chunk (when truthy) or the fragments of that extra call. -/
def chat_with_agent_stream (m : Model) (fuel : Nat) (userMsg : String)
    (history : List (String × String)) (st : List Todo) (uid : String)
    (ctr : Nat) : Except ExecErr (Option (List String × List Todo)) := do
  let msgs := initMsgs userMsg history
  let r ← agentLoop m uid fuel msgs (m.complete msgs) st ctr []
  match r with
  | none => Except.ok none
  | some (finalReply, msgsF, st2, _) =>
    let frags :=
      if contentTruthy finalReply.content then
        [contentOrEmpty finalReply.content]
      else
        m.streamFrags (msgsF ++
          [{ role := "assistant", content := contentOrEmpty finalReply.content }])
    Except.ok (some (frags, st2))

/-! ### Chat endpoints (`routers/chat.py` lines 146-368)

The endpoints treat `chat_with_agent` / `chat_with_agent_stream` as a
black box that either returns or raises, so the agent outcome is passed
in as an `Except String` parameter (`Except.error e` models a raised
exception with `str(e) = e`).  The agent's side effects on the todo
table happen inside that black box and are not part of the endpoint
state here, which covers the conversation and message tables. -/

/-- The conversation/message tables the chat endpoints read and write. -/
structure ChatState where
  convs : List Conversation
  msgs : List MessageRec
deriving DecidableEq, Repr

/-- Word accumulator for `pyWords`. -/
def wordsAux : List Char → List Char → List String
  | [], acc => if acc.isEmpty then [] else [{ data := acc.reverse }]
  | c :: cs, acc =>
    if c.isWhitespace then
      if acc.isEmpty then wordsAux cs [] else
        { data := acc.reverse } :: wordsAux cs []
    else wordsAux cs (c :: acc)

/-- `request.message.split()` — Python whitespace split, dropping empty
tokens. -/
def pyWords (s : String) : List String := wordsAux s.data []

/-- The first-message title: first five whitespace-separated words, with
`"..."` appended iff the message has more than five words
(`routers/chat.py` lines 242-243 and 349-350). -/
def deriveTitle (message : String) : String :=
  String.intercalate " " ((pyWords message).take 5) ++
    (if 5 < (pyWords message).length then "..." else "")

/-- Serialized `tool_calls` column content (opaque). -/
def encodeRecords (recs : List ToolRecord) : String := reprStr recs

/-- `f"I'm sorry, I encountered an error: {str(e)}. Please try again."`. -/
def aiErrorText (e : String) : String :=
  "I" ++ sq ++ "m sorry, I encountered an error: " ++ e ++
    ". Please try again."

deriving instance DecidableEq for Except

/-- Outcome of one buffered chat turn: the new tables plus either an
HTTP error status or `(conversation_id, assistant text)`. -/
structure ChatTurnOut where
  state : ChatState
  response : Except Nat (Nat × String)
deriving DecidableEq, Repr

/-- `POST /chat` (`routers/chat.py` lines 146-268): resolve or create
the conversation, read the pre-turn history, save the user message, run
the agent; on failure save an explanatory assistant message and raise
500; on success save the assistant message and derive the title iff the
pre-turn history was empty. -/
def chat_endpoint (s : ChatState) (uid : String) (convId : Option Nat)
    (message : String) (ai : Except String (String × List ToolRecord))
    (now freshConv freshMsg : Nat) : ChatTurnOut :=
  let found : Except Nat (Conversation × List Conversation) :=
    match convId with
    | some i =>
      match findConv s.convs uid i with
      | none => Except.error 404
      | some c => Except.ok (c, s.convs)
    | none =>
      let c : Conversation :=
        { id := freshConv, user_id := uid, title := "New Chat",
          created_at := now, updated_at := now }
      Except.ok (c, s.convs ++ [c])
  match found with
  | Except.error e => { state := s, response := Except.error e }
  | Except.ok (conv, convs1) =>
    let history := convHistory s.msgs conv.id
    let userRec : MessageRec :=
      { id := freshMsg, conversation_id := conv.id, role := "user",
        content := message, created_at := now }
    let msgs1 := s.msgs ++ [userRec]
    match ai with
    | Except.error e =>
      let errRec : MessageRec :=
        { id := freshMsg + 1, conversation_id := conv.id,
          role := "assistant", content := aiErrorText e, created_at := now }
      { state := { convs := convs1, msgs := msgs1 ++ [errRec] },
        response := Except.error 500 }
    | Except.ok (text, recs) =>
      let asstRec : MessageRec :=
        { id := freshMsg + 1, conversation_id := conv.id,
          role := "assistant", content := text,
          tool_calls := if recs.isEmpty then none else some (encodeRecords recs),
          created_at := now }
      let convs2 :=
        if history.length == 0 then
          convs1.map (fun c =>
            if c = conv then
              { c with title := deriveTitle message, updated_at := now }
            else c)
        else convs1
      { state := { convs := convs2, msgs := msgs1 ++ [asstRec] },
        response := Except.ok (conv.id, text) }

/-- One server-sent event of the streaming endpoint. -/
inductive SEvent where
  | chunk (content : String) (convId : Nat)
  | done (convId : Nat)
  | fatal (err : String)
deriving DecidableEq, Repr

/-- `POST /chat/stream` (`routers/chat.py` lines 271-368): same
conversation/user-message handling, then the generator forwards the
fragments and saves the assistant message (and derives the title on an
empty pre-turn history) only after streaming completes; an exception is
turned into a terminal error event, with nothing further persisted.  A
failing stream is modelled as failing before any fragment is produced. -/
def chat_stream_endpoint (s : ChatState) (uid : String)
    (convId : Option Nat) (message : String)
    (frags : Except String (List String)) (now freshConv freshMsg : Nat) :
    ChatState × Except Nat (List SEvent) :=
  let found : Except Nat (Conversation × List Conversation) :=
    match convId with
    | some i =>
      match findConv s.convs uid i with
      | none => Except.error 404
      | some c => Except.ok (c, s.convs)
    | none =>
      let c : Conversation :=
        { id := freshConv, user_id := uid, title := "New Chat",
          created_at := now, updated_at := now }
      Except.ok (c, s.convs ++ [c])
  match found with
  | Except.error e => (s, Except.error e)
  | Except.ok (conv, convs1) =>
    let history := convHistory s.msgs conv.id
    let userRec : MessageRec :=
      { id := freshMsg, conversation_id := conv.id, role := "user",
        content := message, created_at := now }
    let msgs1 := s.msgs ++ [userRec]
    match frags with
    | Except.error e =>
      ({ convs := convs1, msgs := msgs1 }, Except.ok [SEvent.fatal e])
    | Except.ok fs =>
      let asstRec : MessageRec :=
        { id := freshMsg + 1, conversation_id := conv.id,
          role := "assistant", content := String.join fs, created_at := now }
      let convs2 :=
        if history.length == 0 then
          convs1.map (fun c =>
            if c = conv then
              { c with title := deriveTitle message, updated_at := now }
            else c)
        else convs1
      ({ convs := convs2, msgs := msgs1 ++ [asstRec] },
       Except.ok ((fs.map (fun f => SEvent.chunk f conv.id)) ++
         [SEvent.done conv.id]))

/-! ### Auxiliary definitions for the verification -/

/-- The `required` parameter lists declared in the tool catalog
(`TOOLS` in `ai_agent.py` lines 29-166); exactly the keys `execute_tool`
reads with `arguments[k]`. -/
def requiredParams (name : String) : List String :=
  if name == "create_todo" then ["title"]
  else if name == "list_todos" then []
  else if name == "complete_todo" then ["todo_identifier"]
  else if name == "uncomplete_todo" then ["todo_identifier"]
  else if name == "delete_todo" then ["todo_identifier"]
  else if name == "delete_completed_todos" then []
  else if name == "update_todo" then ["todo_identifier", "new_title"]
  else if name == "search_todos" then ["query"]
  else []

/-- Sample rows used by concrete witnesses and counterexamples. -/
def dMilk : Todo :=
  { id := 1, title := "Buy milk", completed := false, user_id := "A",
    created_at := 10, updated_at := 10 }

/-- Sample row: a completed item of owner `A` whose title also matches
`"milk"`. -/
def dMilkToday : Todo :=
  { id := 2, title := "Buy milk today", completed := true, user_id := "A",
    created_at := 20, updated_at := 20 }

/-- Sample row of a different owner. -/
def dDog : Todo :=
  { id := 3, title := "Walk dog", completed := false, user_id := "B",
    created_at := 30, updated_at := 30 }

/-- A small two-owner store. -/
def demoStore : List Todo := [dMilk, dMilkToday, dDog]

/-- Staged decidability instance for the agent-loop result tuple (the
full nested instance exceeds the default synthesis size). -/
instance : DecidableEq (Reply × List Msg × List Todo × List ToolRecord) :=
  inferInstance

instance : DecidableEq
    (Except ExecErr (Option (Reply × List Msg × List Todo × List ToolRecord))) :=
  inferInstance

/-- A deterministic model stub that requests no tools and returns empty
content, while a streaming call on the same endpoint yields `"hello"`. -/
def emptyContentModel : Model :=
  { complete := fun _ => { content := none, tool_calls := [] },
    streamFrags := fun _ => ["hello"] }

/-- A deterministic model stub that immediately answers `"ok"`. -/
def okModel : Model :=
  { complete := fun _ => { content := some "ok", tool_calls := [] },
    streamFrags := fun _ => ["never", "used"] }

/-! ## Shared lemmas about the resolve algorithm -/

lemma resolveTodo_of_idHit {st : List Todo} {uid ident : String} {t : Todo}
    (h : idHit st uid ident = some t) :
    resolveTodo st uid ident = ResolveOutcome.Resolved t := by
  simp [resolveTodo, h]

lemma resolveTodo_notFound_of {st : List Todo} {uid ident : String}
    (h1 : idHit st uid ident = none) (h2 : titleSearch st uid ident = []) :
    resolveTodo st uid ident = ResolveOutcome.NotFound := by
  simp [resolveTodo, h1, h2]

lemma resolveTodo_single_of {st : List Todo} {uid ident : String} {t : Todo}
    (h1 : idHit st uid ident = none) (h2 : titleSearch st uid ident = [t]) :
    resolveTodo st uid ident = ResolveOutcome.Resolved t := by
  simp [resolveTodo, h1, h2]

lemma resolveTodo_ambiguous_of {st : List Todo} {uid ident : String}
    (h1 : idHit st uid ident = none)
    (h2 : 2 ≤ (titleSearch st uid ident).length) :
    resolveTodo st uid ident =
      ResolveOutcome.Ambiguous (titleSearch st uid ident) := by
  unfold resolveTodo
  rw [h1]
  rcases hts : titleSearch st uid ident with _ | ⟨a, _ | ⟨b, l⟩⟩
  · rw [hts] at h2; simp at h2
  · rw [hts] at h2; simp at h2
  · rfl

lemma idHit_user {st : List Todo} {uid ident : String} {t : Todo}
    (h : idHit st uid ident = some t) : t.user_id = uid := by
  unfold idHit at h
  rcases hp : parseId ident with _ | i
  · rw [hp] at h; exact absurd h (by simp)
  · rw [hp] at h
    have hpa := List.find?_some h
    simp only [Bool.and_eq_true, beq_iff_eq] at hpa
    exact hpa.2

lemma titleSearch_user {st : List Todo} {uid ident : String} {t : Todo}
    (h : t ∈ titleSearch st uid ident) : t.user_id = uid := by
  unfold titleSearch at h
  have := (List.mem_filter.mp h).2
  simp only [Bool.and_eq_true, beq_iff_eq] at this
  exact this.1

lemma resolved_user {st : List Todo} {uid ident : String} {t : Todo}
    (h : resolveTodo st uid ident = ResolveOutcome.Resolved t) :
    t.user_id = uid := by
  unfold resolveTodo at h
  rcases hid : idHit st uid ident with _ | u
  · rw [hid] at h
    rcases hts : titleSearch st uid ident with _ | ⟨a, _ | ⟨b, l⟩⟩ <;>
      rw [hts] at h <;> simp at h
    subst h
    exact titleSearch_user (hts ▸ List.mem_singleton_self a)
  · rw [hid] at h
    simp at h
    subst h
    exact idHit_user hid

lemma ambiguous_eq {st : List Todo} {uid ident : String} {ms : List Todo}
    (h : resolveTodo st uid ident = ResolveOutcome.Ambiguous ms) :
    ms = titleSearch st uid ident ∧ idHit st uid ident = none := by
  unfold resolveTodo at h
  rcases hid : idHit st uid ident with _ | u
  · rw [hid] at h
    rcases hts : titleSearch st uid ident with _ | ⟨a, _ | ⟨b, l⟩⟩ <;>
      rw [hts] at h <;> simp at h
    exact ⟨h.symm, rfl⟩
  · rw [hid] at h; simp at h

lemma bindOkRed {ε : Type u} {α β : Type v} (v : α) (f : α → Except ε β) :
    (Except.ok v : Except ε α) >>= f = f v := rfl

lemma bindErrRed {ε : Type u} {α β : Type v} (e : ε) (f : α → Except ε β) :
    (Except.error e : Except ε α) >>= f = Except.error e := rfl

/-! ## C1 — the shared resolve algorithm -/

/-- C1: the resolve algorithm shared by the mutating tools: a valid id
owned by the caller short-circuits to that todo; otherwise the
case-insensitive title search yields exactly NotFound / Resolved /
Ambiguous for zero / one / many matches; and each mutating tool
(complete, uncomplete, delete, update) honors the NotFound and Ambiguous
outcomes verbatim. -/
theorem resolve_three_way_policy (st : List Todo) (uid ident nt : String)
    (now : Nat) :
    (∀ i t, parseId ident = some i → findTodo st uid i = some t →
      resolveTodo st uid ident = ResolveOutcome.Resolved t) ∧
    (idHit st uid ident = none →
      (titleSearch st uid ident = [] →
        resolveTodo st uid ident = ResolveOutcome.NotFound) ∧
      (∀ t, titleSearch st uid ident = [t] →
        resolveTodo st uid ident = ResolveOutcome.Resolved t) ∧
      (2 ≤ (titleSearch st uid ident).length →
        resolveTodo st uid ident =
          ResolveOutcome.Ambiguous (titleSearch st uid ident))) ∧
    (resolveTodo st uid ident = ResolveOutcome.NotFound →
      complete_todo_tool st uid ident now = (notFoundEnv ident, st) ∧
      uncomplete_todo_tool st uid ident now = (notFoundEnv ident, st) ∧
      delete_todo_tool st uid ident = (notFoundEnv ident, st) ∧
      update_todo_tool st uid ident nt now = (notFoundEnv ident, st)) ∧
    (∀ ms, resolveTodo st uid ident = ResolveOutcome.Ambiguous ms →
      complete_todo_tool st uid ident now = (ambiguousEnv ident ms, st) ∧
      uncomplete_todo_tool st uid ident now = (ambiguousEnv ident ms, st) ∧
      delete_todo_tool st uid ident = (ambiguousEnv ident ms, st) ∧
      update_todo_tool st uid ident nt now = (ambiguousEnv ident ms, st)) := by
  refine ⟨?_, ?_, ?_, ?_⟩
  · intro i t hp hf
    apply resolveTodo_of_idHit
    unfold idHit
    rw [hp]
    exact hf
  · intro h1
    exact ⟨fun h2 => resolveTodo_notFound_of h1 h2,
           fun t h2 => resolveTodo_single_of h1 h2,
           fun h2 => resolveTodo_ambiguous_of h1 h2⟩
  · intro hr
    exact ⟨by simp [complete_todo_tool, hr], by simp [uncomplete_todo_tool, hr],
           by simp [delete_todo_tool, hr], by simp [update_todo_tool, hr]⟩
  · intro ms hr
    exact ⟨by simp [complete_todo_tool, hr], by simp [uncomplete_todo_tool, hr],
           by simp [delete_todo_tool, hr], by simp [update_todo_tool, hr]⟩

/-- Witness for C1 on the sample store: the identifier `"2"` parses as an
id and resolves to the completed item by id; the identifier `"milk"`
falls to the title search and resolves ambiguously. -/
theorem resolve_three_way_policy_witness :
    resolveTodo demoStore "A" "2" = ResolveOutcome.Resolved dMilkToday ∧
    complete_todo_tool demoStore "A" "milk" 99 =
      (ambiguousEnv "milk" [dMilk, dMilkToday], demoStore) := by
  constructor
  · exact (resolve_three_way_policy demoStore "A" "2" "x" 99).1 2 dMilkToday
      (by decide) (by decide)
  · exact ((resolve_three_way_policy demoStore "A" "milk" "x" 99).2.2.2
      [dMilk, dMilkToday] (by decide)).1

/-! ## C4 — ambiguity never mutates -/

/-- C4: when the identifier is not an owned-id hit and fuzzy-matches two
or more of the owner's titles, every mutating tool leaves the store
unchanged and returns the full candidate list as `{id, title}` pairs. -/
theorem ambiguous_match_never_mutates (st : List Todo)
    (uid ident nt : String) (now : Nat)
    (h1 : idHit st uid ident = none)
    (h2 : 2 ≤ (titleSearch st uid ident).length) :
    complete_todo_tool st uid ident now =
      (ambiguousEnv ident (titleSearch st uid ident), st) ∧
    uncomplete_todo_tool st uid ident now =
      (ambiguousEnv ident (titleSearch st uid ident), st) ∧
    delete_todo_tool st uid ident =
      (ambiguousEnv ident (titleSearch st uid ident), st) ∧
    update_todo_tool st uid ident nt now =
      (ambiguousEnv ident (titleSearch st uid ident), st) ∧
    (ambiguousEnv ident (titleSearch st uid ident)).success = false ∧
    (ambiguousEnv ident (titleSearch st uid ident)).matchList =
      some ((titleSearch st uid ident).map
        (fun t => { id := t.id, title := t.title })) := by
  have hr := resolveTodo_ambiguous_of h1 h2
  exact ⟨by simp [complete_todo_tool, hr], by simp [uncomplete_todo_tool, hr],
         by simp [delete_todo_tool, hr], by simp [update_todo_tool, hr],
         rfl, rfl⟩

/-- Witness for C4: `"milk"` matches both of owner `A`'s titles; no tool
mutates the store and both candidates are listed. -/
theorem ambiguous_match_never_mutates_witness :
    idHit demoStore "A" "milk" = none ∧
    2 ≤ (titleSearch demoStore "A" "milk").length ∧
    delete_todo_tool demoStore "A" "milk" =
      (ambiguousEnv "milk" (titleSearch demoStore "A" "milk"), demoStore) :=
  ⟨by decide, by decide,
   (ambiguous_match_never_mutates demoStore "A" "milk" "x" 99
     (by decide) (by decide)).2.2.1⟩

/-! ## C5 — completion toggling is an idempotent success no-op -/

/-- C5: completing an already-completed todo (and uncompleting an
already-incomplete one) succeeds with an explanatory message and leaves
the store — in particular the `updated` timestamp — exactly unchanged. -/
theorem complete_idempotent_noop (st : List Todo) (uid ident : String)
    (now : Nat) (t : Todo)
    (h : resolveTodo st uid ident = ResolveOutcome.Resolved t) :
    (t.completed = true → complete_todo_tool st uid ident now =
      ({ success := true,
         message := "Todo " ++ sq ++ t.title ++ sq ++ " is already completed",
         todo := some { id := t.id, title := t.title, completed := true } },
       st)) ∧
    (t.completed = false → uncomplete_todo_tool st uid ident now =
      ({ success := true,
         message := "Todo " ++ sq ++ t.title ++ sq ++ " is not completed yet",
         todo := some { id := t.id, title := t.title, completed := false } },
       st)) := by
  constructor
  · intro hc
    simp [complete_todo_tool, h, hc]
  · intro hc
    simp [uncomplete_todo_tool, h, hc]

/-- Witness for C5: completing the already-completed sample item is a
success no-op. -/
theorem complete_idempotent_noop_witness :
    complete_todo_tool demoStore "A" "today" 99 =
      ({ success := true,
         message := "Todo " ++ sq ++ "Buy milk today" ++ sq ++
           " is already completed",
         todo := some { id := 2, title := "Buy milk today",
                        completed := true } },
       demoStore) :=
  (complete_idempotent_noop demoStore "A" "today" 99 dMilkToday
    (by decide)).1 (by decide)

/-! ## C10 — rename performs no validation -/

/-- C10: on a uniquely resolved todo, `update_todo_tool` always
succeeds, stores the stripped new title — even when that is empty — and
sets the `updated` timestamp to the call time. -/
theorem update_todo_no_validation (st : List Todo)
    (uid ident new_title : String) (now : Nat) (t : Todo)
    (h : resolveTodo st uid ident = ResolveOutcome.Resolved t) :
    update_todo_tool st uid ident new_title now =
      ({ success := true,
         message := "Updated " ++ sq ++ t.title ++ sq ++ " to " ++ sq ++
           pyStrip new_title ++ sq,
         todo := some { id := t.id, title := pyStrip new_title,
                        completed := t.completed } },
       replaceTodo t { t with title := pyStrip new_title, updated_at := now }
         st) ∧
    (t ∈ st →
      { t with title := pyStrip new_title, updated_at := now } ∈
        (update_todo_tool st uid ident new_title now).2) := by
  constructor
  · simp [update_todo_tool, h]
  · intro ht
    simp only [update_todo_tool, h, replaceTodo]
    exact List.mem_map.mpr ⟨t, ht, by simp⟩

/-- Witness for C10: renaming the sample item to a whitespace-only title
succeeds and stores the empty title with the new timestamp. -/
theorem update_todo_no_validation_witness :
    update_todo_tool demoStore "A" "1" "   " 99 =
      ({ success := true,
         message := "Updated " ++ sq ++ "Buy milk" ++ sq ++ " to " ++
           sq ++ "" ++ sq,
         todo := some { id := 1, title := "", completed := false } },
       replaceTodo dMilk { dMilk with title := "", updated_at := 99 }
         demoStore) ∧
    { dMilk with title := "", updated_at := 99 } ∈
      (update_todo_tool demoStore "A" "1" "   " 99).2 := by
  have h := update_todo_no_validation demoStore "A" "1" "   " 99 dMilk
    (by decide)
  exact ⟨h.1, h.2 (by decide)⟩

/-! ## C3 — create validation -/

/-- C3 counterexample: the whitespace-only title `" "` is empty after
trimming, yet the tool-level create succeeds and persists a row with the
empty title, and the HTTP create endpoint (whose pydantic check counts
the raw, untrimmed length) accepts it too — no `ValidationError`, and
something is persisted. -/
theorem create_empty_title_cex :
    (create_todo_tool [] "A" " " 0 7).1.success = true ∧
    (create_todo_tool [] "A" " " 0 7).2 =
      [{ id := 7, title := "", completed := false, user_id := "A",
         created_at := 0, updated_at := 0 }] ∧
    create_todo_endpoint [] "A" " " 0 7 =
      Except.ok ({ id := 7, title := "", completed := false, user_id := "A",
                   created_at := 0, updated_at := 0 },
        [{ id := 7, title := "", completed := false, user_id := "A",
           created_at := 0, updated_at := 0 }]) := by
  decide

/-- C3 amended: validation exists only at the HTTP layer and only on the
raw title — a title of raw length zero is rejected with a validation
error and nothing is persisted; any title passing the raw-length check
(including whitespace-only ones) is persisted as exactly one new todo
with the trimmed title and `completed = false`; the tool-level create
never validates and always persists. -/
theorem create_validation_amended (st : List Todo) (uid title : String)
    (now newId : Nat) :
    (title.length = 0 → create_todo_endpoint st uid title now newId =
      Except.error 422) ∧
    (1 ≤ title.length → title.length ≤ 500 →
      create_todo_endpoint st uid title now newId =
        Except.ok ({ id := newId, title := pyStrip title, completed := false,
                     user_id := uid, created_at := now, updated_at := now },
          st ++ [{ id := newId, title := pyStrip title, completed := false,
                   user_id := uid, created_at := now, updated_at := now }])) ∧
    ((create_todo_tool st uid title now newId).1.success = true ∧
      (create_todo_tool st uid title now newId).2 =
        st ++ [{ id := newId, title := pyStrip title, completed := false,
                 user_id := uid, created_at := now, updated_at := now }]) := by
  refine ⟨?_, ?_, rfl, rfl⟩
  · intro h
    simp [create_todo_endpoint, todoCreateValid, h]
  · intro h1 h2
    simp [create_todo_endpoint, todoCreateValid, h1, h2]

/-- Witness for the amended C3 at the raw titles `""` (rejected) and
`" x "` (accepted and stored trimmed). -/
theorem create_validation_amended_witness :
    create_todo_endpoint [] "A" "" 0 7 = Except.error 422 ∧
    create_todo_endpoint [] "A" " x " 0 7 =
      Except.ok ({ id := 7, title := pyStrip " x ", completed := false,
                   user_id := "A", created_at := 0, updated_at := 0 },
        [] ++ [{ id := 7, title := pyStrip " x ", completed := false,
                 user_id := "A", created_at := 0, updated_at := 0 }]) :=
  ⟨(create_validation_amended [] "A" "" 0 7).1 (by decide),
   (create_validation_amended [] "A" " x " 0 7).2.1 (by decide) (by decide)⟩

/-! ## C6 — the executor boundary -/

/-- C6: an unknown tool name yields exactly the
`{success:false, message:"Unknown tool: <name>"}` envelope and never an
exception; an exception escapes the executor only when a required
argument of a known tool is missing or ill-typed in the bag (a malformed
tool-call payload, classed orchestration-level by the spec); with all
required arguments present as strings, every known tool returns an
envelope — tool-level failures travel as envelope data. -/
theorem executor_boundary (name : String) (args : ArgBag) (st : List Todo)
    (uid : String) (ctr : Nat) :
    (name ∉ knownTools →
      execute_tool name args st uid ctr =
        Except.ok (unknownToolEnv name, st)) ∧
    (∀ e, execute_tool name args st uid ctr = Except.error e →
      name ∈ knownTools ∧
        ∃ k, k ∈ requiredParams name ∧ getStrArg args k = Except.error e) ∧
    ((∀ k, k ∈ requiredParams name → (getStrArg args k).isOk = true) →
      ∃ p, execute_tool name args st uid ctr = Except.ok p) := by
  by_cases h1 : name = "create_todo"
  case pos =>
    subst h1
    refine ⟨fun hn => absurd (by simp [knownTools]) hn, ?_, ?_⟩
    · intro e he
      rcases hg : getStrArg args "title" with e2 | v
      · simp [execute_tool, hg, bindErrRed] at he
        exact ⟨by simp [knownTools], "title", by simp [requiredParams],
          he ▸ hg⟩
      · simp [execute_tool, hg, bindOkRed] at he
    · intro hk
      have hko := hk "title" (by simp [requiredParams])
      rcases hg : getStrArg args "title" with e2 | v
      · rw [hg] at hko; simp [Except.isOk, Except.toBool] at hko
      · exact ⟨(create_todo_tool st uid v ctr ctr),
          by simp [execute_tool, hg, bindOkRed]⟩
  by_cases h2 : name = "list_todos"
  case pos =>
    subst h2
    exact ⟨fun hn => absurd (by simp [knownTools]) hn,
           fun e he => absurd he (by simp [execute_tool]),
           fun _ => ⟨(list_todos_tool st uid
               (getToggleArg args "include_completed" true), st),
             by simp [execute_tool]⟩⟩
  by_cases h3 : name = "complete_todo"
  case pos =>
    subst h3
    refine ⟨fun hn => absurd (by simp [knownTools]) hn, ?_, ?_⟩
    · intro e he
      rcases hg : getStrArg args "todo_identifier" with e2 | v
      · simp [execute_tool, hg, bindErrRed] at he
        exact ⟨by simp [knownTools], "todo_identifier",
          by simp [requiredParams], he ▸ hg⟩
      · simp [execute_tool, hg, bindOkRed] at he
    · intro hk
      have hko := hk "todo_identifier" (by simp [requiredParams])
      rcases hg : getStrArg args "todo_identifier" with e2 | v
      · rw [hg] at hko; simp [Except.isOk, Except.toBool] at hko
      · exact ⟨(complete_todo_tool st uid v ctr),
          by simp [execute_tool, hg, bindOkRed]⟩
  by_cases h4 : name = "uncomplete_todo"
  case pos =>
    subst h4
    refine ⟨fun hn => absurd (by simp [knownTools]) hn, ?_, ?_⟩
    · intro e he
      rcases hg : getStrArg args "todo_identifier" with e2 | v
      · simp [execute_tool, hg, bindErrRed] at he
        exact ⟨by simp [knownTools], "todo_identifier",
          by simp [requiredParams], he ▸ hg⟩
      · simp [execute_tool, hg, bindOkRed] at he
    · intro hk
      have hko := hk "todo_identifier" (by simp [requiredParams])
      rcases hg : getStrArg args "todo_identifier" with e2 | v
      · rw [hg] at hko; simp [Except.isOk, Except.toBool] at hko
      · exact ⟨(uncomplete_todo_tool st uid v ctr),
          by simp [execute_tool, hg, bindOkRed]⟩
  by_cases h5 : name = "delete_todo"
  case pos =>
    subst h5
    refine ⟨fun hn => absurd (by simp [knownTools]) hn, ?_, ?_⟩
    · intro e he
      rcases hg : getStrArg args "todo_identifier" with e2 | v
      · simp [execute_tool, hg, bindErrRed] at he
        exact ⟨by simp [knownTools], "todo_identifier",
          by simp [requiredParams], he ▸ hg⟩
      · simp [execute_tool, hg, bindOkRed] at he
    · intro hk
      have hko := hk "todo_identifier" (by simp [requiredParams])
      rcases hg : getStrArg args "todo_identifier" with e2 | v
      · rw [hg] at hko; simp [Except.isOk, Except.toBool] at hko
      · exact ⟨(delete_todo_tool st uid v),
          by simp [execute_tool, hg, bindOkRed]⟩
  by_cases h6 : name = "delete_completed_todos"
  case pos =>
    subst h6
    exact ⟨fun hn => absurd (by simp [knownTools]) hn,
           fun e he => absurd he (by simp [execute_tool]),
           fun _ => ⟨(delete_completed_todos_tool st uid),
             by simp [execute_tool]⟩⟩
  by_cases h7 : name = "update_todo"
  case pos =>
    subst h7
    refine ⟨fun hn => absurd (by simp [knownTools]) hn, ?_, ?_⟩
    · intro e he
      rcases hg : getStrArg args "todo_identifier" with e2 | v
      · simp [execute_tool, hg, bindErrRed] at he
        exact ⟨by simp [knownTools], "todo_identifier",
          by simp [requiredParams], he ▸ hg⟩
      · rcases hg2 : getStrArg args "new_title" with e3 | v2
        · simp [execute_tool, hg, hg2, bindOkRed, bindErrRed] at he
          exact ⟨by simp [knownTools], "new_title",
            by simp [requiredParams], he ▸ hg2⟩
        · simp [execute_tool, hg, hg2, bindOkRed] at he
    · intro hk
      have ha := hk "todo_identifier" (by simp [requiredParams])
      have hb := hk "new_title" (by simp [requiredParams])
      rcases hg : getStrArg args "todo_identifier" with e2 | v
      · rw [hg] at ha; simp [Except.isOk, Except.toBool] at ha
      · rcases hg2 : getStrArg args "new_title" with e3 | v2
        · rw [hg2] at hb; simp [Except.isOk, Except.toBool] at hb
        · exact ⟨(update_todo_tool st uid v v2 ctr),
            by simp [execute_tool, hg, hg2, bindOkRed]⟩
  by_cases h8 : name = "search_todos"
  case pos =>
    subst h8
    refine ⟨fun hn => absurd (by simp [knownTools]) hn, ?_, ?_⟩
    · intro e he
      rcases hg : getStrArg args "query" with e2 | v
      · simp [execute_tool, hg, bindErrRed] at he
        exact ⟨by simp [knownTools], "query", by simp [requiredParams],
          he ▸ hg⟩
      · simp [execute_tool, hg, bindOkRed] at he
    · intro hk
      have hko := hk "query" (by simp [requiredParams])
      rcases hg : getStrArg args "query" with e2 | v
      · rw [hg] at hko; simp [Except.isOk, Except.toBool] at hko
      · exact ⟨(search_todos_tool st uid v, st),
          by simp [execute_tool, hg, bindOkRed]⟩
  case neg =>
    have hexec : execute_tool name args st uid ctr =
        Except.ok (unknownToolEnv name, st) := by
      simp [execute_tool, h1, h2, h3, h4, h5, h6, h7, h8]
    exact ⟨fun _ => hexec, fun e he => absurd he (by simp [hexec]),
           fun _ => ⟨_, hexec⟩⟩

/-- Witness for C6: the unknown tool `"bogus"` returns its envelope, and
`create_todo` with its required argument present returns an envelope. -/
theorem executor_boundary_witness :
    execute_tool "bogus" [] demoStore "A" 0 =
      Except.ok (unknownToolEnv "bogus", demoStore) ∧
    ∃ p, execute_tool "create_todo" [("title", JVal.s "read")] demoStore
      "A" 0 = Except.ok p :=
  ⟨(executor_boundary "bogus" [] demoStore "A" 0).1 (by decide),
   (executor_boundary "create_todo" [("title", JVal.s "read")] demoStore
     "A" 0).2.2 (by decide)⟩

/-! ## C7 — streaming vs. buffered final text -/

/-- C7 counterexample: with a deterministic model whose final reply has
empty content, the buffered path returns the fixed fallback string while
the streaming path forwards the fragments of one extra streaming model
call (`"hello"` here), so the concatenated streamed text differs from
the buffered text on identical input and store state. -/
theorem stream_buffered_divergence_cex :
    chat_with_agent emptyContentModel 1 "hi" [] [] "A" 0 =
      Except.ok (some (fallbackMsg, [], [])) ∧
    chat_with_agent_stream emptyContentModel 1 "hi" [] [] "A" 0 =
      Except.ok (some (["hello"], [])) ∧
    String.join ["hello"] ≠ fallbackMsg := by
  refine ⟨by decide, by decide, by decide⟩

/-- C7 amended: both chat paths run the identical tool loop (identical
errors, identical cut-off, identical final store); whenever the loop's
final model reply carries non-empty text, the streaming path emits
exactly that text as a single fragment, whose concatenation equals the
buffered path's returned text.  (When the final content is empty, the
buffered path returns the fixed fallback while the streaming path
forwards one extra streaming model call, and the texts can differ.) -/
theorem stream_buffered_loop_agreement (m : Model) (fuel : Nat)
    (userMsg : String) (history : List (String × String)) (st : List Todo)
    (uid : String) (ctr : Nat) :
    (∀ e, agentLoop m uid fuel (initMsgs userMsg history)
        (m.complete (initMsgs userMsg history)) st ctr [] =
          Except.error e →
      chat_with_agent m fuel userMsg history st uid ctr = Except.error e ∧
      chat_with_agent_stream m fuel userMsg history st uid ctr =
        Except.error e) ∧
    (agentLoop m uid fuel (initMsgs userMsg history)
        (m.complete (initMsgs userMsg history)) st ctr [] =
          Except.ok none →
      chat_with_agent m fuel userMsg history st uid ctr =
        Except.ok none ∧
      chat_with_agent_stream m fuel userMsg history st uid ctr =
        Except.ok none) ∧
    (∀ reply msgs2 st2 recs,
      agentLoop m uid fuel (initMsgs userMsg history)
        (m.complete (initMsgs userMsg history)) st ctr [] =
          Except.ok (some (reply, msgs2, st2, recs)) →
      contentTruthy reply.content = true →
      chat_with_agent m fuel userMsg history st uid ctr =
        Except.ok (some (contentOrEmpty reply.content, recs, st2)) ∧
      chat_with_agent_stream m fuel userMsg history st uid ctr =
        Except.ok (some ([contentOrEmpty reply.content], st2)) ∧
      String.join [contentOrEmpty reply.content] =
        contentOrEmpty reply.content) := by
  refine ⟨?_, ?_, ?_⟩
  · intro e he
    exact ⟨by simp [chat_with_agent, he, bindErrRed],
           by simp [chat_with_agent_stream, he, bindErrRed]⟩
  · intro he
    exact ⟨by simp [chat_with_agent, he, bindOkRed],
           by simp [chat_with_agent_stream, he, bindOkRed]⟩
  · intro reply msgs2 st2 recs he ht
    refine ⟨?_, ?_, by simp [String.join]⟩
    · simp [chat_with_agent, he, bindOkRed, contentOrFallback, ht]
    · simp [chat_with_agent_stream, he, bindOkRed, ht]

/-- Witness for the amended C7: with a deterministic model answering
`"ok"` immediately, both paths return the same text. -/
theorem stream_buffered_loop_agreement_witness :
    chat_with_agent okModel 1 "hi" [] [] "A" 0 =
      Except.ok (some ("ok", [], [])) ∧
    chat_with_agent_stream okModel 1 "hi" [] [] "A" 0 =
      Except.ok (some (["ok"], [])) := by
  have h := (stream_buffered_loop_agreement okModel 1 "hi" [] [] "A" 0).2.2
    { content := some "ok", tool_calls := [] } (initMsgs "hi" []) [] []
    (by decide) (by decide)
  exact ⟨h.1, h.2.1⟩

lemma map_id_of {α : Type u} (l : List α) (f : α → α)
    (h : ∀ a ∈ l, f a = a) : l.map f = l := by
  induction l with
  | nil => rfl
  | cons a t ih =>
    simp only [List.map_cons]
    rw [h a (by simp), ih (fun b hb => h b (by simp [hb]))]

/-! ## C8 — failure logging -/

/-- C8 counterexample: on the streaming endpoint, a failing agent call
leaves the conversation log with only the user message — no assistant
message explaining the failure is recorded, and no server error is
raised (a terminal error event is emitted instead), so the log silently
misses the assistant half of the turn. -/
theorem stream_failure_unlogged_cex :
    (chat_stream_endpoint { convs := [], msgs := [] } "A" none "hi"
        (Except.error "boom") 0 1 2).1.msgs =
      [{ id := 2, conversation_id := 1, role := "user", content := "hi",
         created_at := 0 }] ∧
    ((chat_stream_endpoint { convs := [], msgs := [] } "A" none "hi"
        (Except.error "boom") 0 1 2).1.msgs.all
      (fun m => !(m.role == "assistant"))) = true ∧
    (chat_stream_endpoint { convs := [], msgs := [] } "A" none "hi"
        (Except.error "boom") 0 1 2).2 =
      Except.ok [SEvent.fatal "boom"] := by
  decide

/-- C8 amended: on the buffered endpoint a failed agent call still
records an explanatory assistant message before the 500 error is
raised; on the streaming endpoint a failure yields only a terminal error
event and records no assistant message (only the user message is
persisted). -/
theorem llm_failure_logging_amended (s : ChatState)
    (uid message e : String) (now fc fm i : Nat) (c : Conversation) :
    (chat_endpoint s uid none message (Except.error e) now fc fm =
      { state :=
          { convs := s.convs ++
              [{ id := fc, user_id := uid, title := "New Chat",
                 created_at := now, updated_at := now }],
            msgs := s.msgs ++
              [{ id := fm, conversation_id := fc, role := "user",
                 content := message, created_at := now },
               { id := fm + 1, conversation_id := fc, role := "assistant",
                 content := aiErrorText e, created_at := now }] },
        response := Except.error 500 }) ∧
    (findConv s.convs uid i = some c →
      chat_endpoint s uid (some i) message (Except.error e) now fc fm =
        { state :=
            { convs := s.convs,
              msgs := s.msgs ++
                [{ id := fm, conversation_id := c.id, role := "user",
                   content := message, created_at := now },
                 { id := fm + 1, conversation_id := c.id,
                   role := "assistant", content := aiErrorText e,
                   created_at := now }] },
          response := Except.error 500 }) ∧
    (chat_stream_endpoint s uid none message (Except.error e) now fc fm =
      ({ convs := s.convs ++
           [{ id := fc, user_id := uid, title := "New Chat",
              created_at := now, updated_at := now }],
         msgs := s.msgs ++
           [{ id := fm, conversation_id := fc, role := "user",
              content := message, created_at := now }] },
       Except.ok [SEvent.fatal e])) ∧
    (findConv s.convs uid i = some c →
      chat_stream_endpoint s uid (some i) message (Except.error e) now fc
          fm =
        ({ convs := s.convs,
           msgs := s.msgs ++
             [{ id := fm, conversation_id := c.id, role := "user",
                content := message, created_at := now }] },
         Except.ok [SEvent.fatal e])) := by
  refine ⟨by simp [chat_endpoint], ?_, by simp [chat_stream_endpoint], ?_⟩
  · intro h
    simp [chat_endpoint, h]
  · intro h
    simp [chat_stream_endpoint, h]

/-- Witness for the amended C8: a concrete failing buffered turn on an
existing conversation records the explanatory assistant message and
raises 500. -/
theorem llm_failure_logging_amended_witness :
    chat_endpoint
        { convs := [{ id := 4, user_id := "A", title := "T",
                      created_at := 0, updated_at := 0 }], msgs := [] }
        "A" (some 4) "hi" (Except.error "boom") 5 9 2 =
      { state :=
          { convs := [{ id := 4, user_id := "A", title := "T",
                        created_at := 0, updated_at := 0 }],
            msgs := [{ id := 2, conversation_id := 4, role := "user",
                       content := "hi", created_at := 5 },
                     { id := 3, conversation_id := 4, role := "assistant",
                       content := aiErrorText "boom", created_at := 5 }] },
        response := Except.error 500 } :=
  (llm_failure_logging_amended
    { convs := [{ id := 4, user_id := "A", title := "T", created_at := 0,
                  updated_at := 0 }], msgs := [] }
    "A" "hi" "boom" 5 9 2 4
    { id := 4, user_id := "A", title := "T", created_at := 0,
      updated_at := 0 }).2.1 (by decide)

/-! ## C9 — conversation title derivation -/

/-- C9 counterexample: when the turn with empty pre-turn history fails
at the model call, the title is not derived on that turn and is never
derived later — after a failing first turn and a successful second turn
the title is still the default `"New Chat"`, not the derived string, so
derivation does not happen "exactly once, on the turn where the
pre-turn history length is zero". -/
theorem title_derivation_cex :
    convHistory (ChatState.mk [] []).msgs 1 = [] ∧
    ((chat_endpoint (ChatState.mk [] []) "A" none "hello world"
        (Except.error "x") 0 1 10).state.convs.map Conversation.title) =
      ["New Chat"] ∧
    ((chat_endpoint
        (chat_endpoint (ChatState.mk [] []) "A" none "hello world"
          (Except.error "x") 0 1 10).state
        "A" (some 1) "second" (Except.ok ("fine", [])) 5 2 20).state.convs.map
          Conversation.title) = ["New Chat"] ∧
    deriveTitle "hello world" = "hello world" ∧
    ("New Chat" : String) ≠ "hello world" := by
  refine ⟨by decide, by decide, by decide, by decide, by decide⟩

/-- C9 amended: on a successful turn the title is derived iff the
pre-turn history is empty — it becomes the first five
whitespace-separated words with `"..."` appended iff the message has
more than five words; turns with nonempty pre-turn history, and failed
turns, never change any conversation title (on both endpoints), so once
the history is nonempty the title never changes. -/
theorem title_derivation_amended (s : ChatState)
    (uid message text e : String) (recs : List ToolRecord)
    (fs : List String) (now fc fm i : Nat) (c : Conversation) :
    (deriveTitle message =
      String.intercalate " " ((pyWords message).take 5) ++
        (if 5 < (pyWords message).length then "..." else "")) ∧
    (convHistory s.msgs fc = [] → (∀ u ∈ s.convs, u.id ≠ fc) →
      (chat_endpoint s uid none message (Except.ok (text, recs)) now fc
          fm).state.convs =
        s.convs ++ [{ id := fc, user_id := uid,
                      title := deriveTitle message, created_at := now,
                      updated_at := now }]) ∧
    (findConv s.convs uid i = some c → convHistory s.msgs c.id = [] →
      (chat_endpoint s uid (some i) message (Except.ok (text, recs)) now
          fc fm).state.convs =
        s.convs.map (fun u => if u = c then
          { u with title := deriveTitle message, updated_at := now }
          else u)) ∧
    (findConv s.convs uid i = some c → convHistory s.msgs c.id ≠ [] →
      (chat_endpoint s uid (some i) message (Except.ok (text, recs)) now
          fc fm).state.convs = s.convs) ∧
    (findConv s.convs uid i = some c →
      (chat_endpoint s uid (some i) message (Except.error e) now fc
          fm).state.convs = s.convs) ∧
    (findConv s.convs uid i = some c → convHistory s.msgs c.id = [] →
      (chat_stream_endpoint s uid (some i) message (Except.ok fs) now fc
          fm).1.convs =
        s.convs.map (fun u => if u = c then
          { u with title := deriveTitle message, updated_at := now }
          else u)) ∧
    (findConv s.convs uid i = some c → convHistory s.msgs c.id ≠ [] →
      (chat_stream_endpoint s uid (some i) message (Except.ok fs) now fc
          fm).1.convs = s.convs) ∧
    (findConv s.convs uid i = some c →
      (chat_stream_endpoint s uid (some i) message (Except.error e) now
          fc fm).1.convs = s.convs) := by
  refine ⟨rfl, ?_, ?_, ?_, ?_, ?_, ?_, ?_⟩
  · intro hh hid
    simp only [chat_endpoint, hh]
    rw [List.map_append]
    rw [map_id_of _ _ (fun u hu => by
      simp only [ite_eq_right_iff]
      intro heq
      exact absurd (congrArg Conversation.id heq) (hid u hu))]
    simp
  · intro hf hh
    simp only [chat_endpoint, hf, hh]
    simp
  · intro hf hh
    rcases List.exists_cons_of_ne_nil hh with ⟨a, t, ht⟩
    simp only [chat_endpoint, hf, ht]
    simp
  · intro hf
    simp [chat_endpoint, hf]
  · intro hf hh
    simp only [chat_stream_endpoint, hf, hh]
    simp
  · intro hf hh
    rcases List.exists_cons_of_ne_nil hh with ⟨a, t, ht⟩
    simp only [chat_stream_endpoint, hf, ht]
    simp
  · intro hf
    simp [chat_stream_endpoint, hf]

/-- Witness for the amended C9: a successful first turn on an existing
conversation with empty history derives the five-word-plus-ellipsis
title. -/
theorem title_derivation_amended_witness :
    (chat_endpoint
        { convs := [{ id := 1, user_id := "A", title := "New Chat",
                      created_at := 0, updated_at := 0 }], msgs := [] }
        "A" (some 1) "one two three four five six"
        (Except.ok ("done", [])) 7 9 2).state.convs =
      [{ id := 1, user_id := "A", title := "one two three four five...",
         created_at := 0, updated_at := 7 }] := by
  have h := (title_derivation_amended
    { convs := [{ id := 1, user_id := "A", title := "New Chat",
                  created_at := 0, updated_at := 0 }], msgs := [] }
    "A" "one two three four five six" "done" "" [] [] 7 9 2 1
    { id := 1, user_id := "A", title := "New Chat", created_at := 0,
      updated_at := 0 }).2.2.1 (by decide) (by decide)
  rw [h]
  decide

/-! ## C2 — owner isolation: frame lemmas -/

lemma filter_map_frame {α : Type u} (f : α → α) (p : α → Bool)
    (hpres : ∀ u, p (f u) = p u) (hfix : ∀ u, p u = true → f u = u) :
    ∀ l : List α, (l.map f).filter p = l.filter p := by
  intro l
  induction l with
  | nil => rfl
  | cons a t ih =>
    cases hpa : p a with
    | false => simp [List.filter_cons, hpres a, hpa, ih]
    | true => simp [List.filter_cons, hpres a, hpa, ih, hfix a hpa]

lemma filter_filter_frame {α : Type u} (keep p : α → Bool)
    (h : ∀ u, p u = true → keep u = true) :
    ∀ l : List α, (l.filter keep).filter p = l.filter p := by
  intro l
  induction l with
  | nil => rfl
  | cons a t ih =>
    cases hk : keep a with
    | false =>
      cases hpa : p a with
      | false => simp [List.filter_cons, hk, hpa, ih]
      | true => exact absurd (h a hpa) (by simp [hk])
    | true => simp [List.filter_cons, hk, ih]

/-- Rows of owner `B` (`B ≠ A`) survive an in-place update of an
`A`-owned row untouched. -/
lemma replaceTodo_filter_frame {A B : String} (hAB : A ≠ B)
    (t0 t1 : Todo) (hA : t0.user_id = A) (h1 : t1.user_id = t0.user_id)
    (st : List Todo) :
    (replaceTodo t0 t1 st).filter (fun u => u.user_id == B) =
      st.filter (fun u => u.user_id == B) := by
  apply filter_map_frame
  · intro u
    by_cases hu : u = t0
    · subst hu
      simp [h1]
    · simp [hu]
  · intro u hp
    have hub : u.user_id = B := by simpa using hp
    by_cases hu : u = t0
    · subst hu
      exact absurd (hA.symm.trans hub) hAB
    · simp [hu]

/-- Rows of owner `B` survive deleting an `A`-owned row. -/
lemma eraseTodo_filter_frame {A B : String} (hAB : A ≠ B) (t0 : Todo)
    (hA : t0.user_id = A) (st : List Todo) :
    ((st.filter (fun u => !decide (u = t0))).filter
        (fun u => u.user_id == B)) =
      st.filter (fun u => u.user_id == B) := by
  apply filter_filter_frame
  intro u hp
  have hub : u.user_id = B := by simpa using hp
  by_cases hu : u = t0
  · subst hu
    exact absurd (hA.symm.trans hub) hAB
  · simp [hu]

/-- The per-tool store frame: every mutating tool invoked by owner `A`
leaves owner `B`'s rows unchanged. -/
lemma complete_tool_frame {A B : String} (hAB : A ≠ B)
    (st : List Todo) (ident : String) (now : Nat) :
    ((complete_todo_tool st A ident now).2).filter
        (fun u => u.user_id == B) =
      st.filter (fun u => u.user_id == B) := by
  unfold complete_todo_tool
  rcases hr : resolveTodo st A ident with _ | t | msx
  · rfl
  · by_cases hc : t.completed
    · simp [hc]
    · simp only [hc, Bool.false_eq_true, if_false]
      exact replaceTodo_filter_frame hAB t
        { t with completed := true, updated_at := now }
        (resolved_user hr) rfl st
  · rfl

lemma uncomplete_tool_frame {A B : String} (hAB : A ≠ B)
    (st : List Todo) (ident : String) (now : Nat) :
    ((uncomplete_todo_tool st A ident now).2).filter
        (fun u => u.user_id == B) =
      st.filter (fun u => u.user_id == B) := by
  unfold uncomplete_todo_tool
  rcases hr : resolveTodo st A ident with _ | t | msx
  · rfl
  · by_cases hc : t.completed
    · simp only [hc, Bool.not_true, Bool.false_eq_true, if_false]
      exact replaceTodo_filter_frame hAB t
        { t with completed := false, updated_at := now }
        (resolved_user hr) rfl st
    · simp [hc]
  · rfl

lemma delete_tool_frame {A B : String} (hAB : A ≠ B)
    (st : List Todo) (ident : String) :
    ((delete_todo_tool st A ident).2).filter (fun u => u.user_id == B) =
      st.filter (fun u => u.user_id == B) := by
  unfold delete_todo_tool
  rcases hr : resolveTodo st A ident with _ | t | msx
  · rfl
  · exact eraseTodo_filter_frame hAB t (resolved_user hr) st
  · rfl

lemma update_tool_frame {A B : String} (hAB : A ≠ B)
    (st : List Todo) (ident nt : String) (now : Nat) :
    ((update_todo_tool st A ident nt now).2).filter
        (fun u => u.user_id == B) =
      st.filter (fun u => u.user_id == B) := by
  unfold update_todo_tool
  rcases hr : resolveTodo st A ident with _ | t | msx
  · rfl
  · exact replaceTodo_filter_frame hAB t
      { t with title := pyStrip nt, updated_at := now }
      (resolved_user hr) rfl st
  · rfl

lemma delete_completed_tool_frame {A B : String} (hAB : A ≠ B)
    (st : List Todo) :
    ((delete_completed_todos_tool st A).2).filter
        (fun u => u.user_id == B) =
      st.filter (fun u => u.user_id == B) := by
  unfold delete_completed_todos_tool
  by_cases he : (st.filter (fun t => t.user_id == A && t.completed)).isEmpty
  · simp [he]
  · simp only [he, Bool.false_eq_true, if_false]
    apply filter_filter_frame
    intro u hp
    have hub : u.user_id = B := by simpa using hp
    have : (u.user_id == A) = false := by
      simp [hub]
      exact fun h => hAB h.symm
    simp [this]

lemma create_tool_frame {A B : String} (hAB : A ≠ B)
    (st : List Todo) (title : String) (now newId : Nat) :
    ((create_todo_tool st A title now newId).2).filter
        (fun u => u.user_id == B) =
      st.filter (fun u => u.user_id == B) := by
  unfold create_todo_tool
  have : (A == B) = false := by simp [hAB]
  simp [List.filter_append, this]

lemma findTodo_user {st : List Todo} {uid : String} {i : Nat} {t : Todo}
    (h : findTodo st uid i = some t) : t.user_id = uid ∧ t.id = i := by
  have hp := List.find?_some h
  simp only [Bool.and_eq_true, beq_iff_eq] at hp
  exact ⟨hp.2, hp.1⟩

lemma findTodo_none {st : List Todo} {uid : String} {i : Nat}
    (h : ∀ t ∈ st, t.id = i → t.user_id ≠ uid) :
    findTodo st uid i = none := by
  apply List.find?_eq_none.mpr
  intro t ht
  simp only [Bool.and_eq_true, beq_iff_eq, not_and]
  exact fun hid => h t ht hid

lemma findConv_user {cs : List Conversation} {uid : String} {i : Nat}
    {c : Conversation} (h : findConv cs uid i = some c) :
    c.user_id = uid ∧ c.id = i ∧ c ∈ cs := by
  have hp := List.find?_some h
  simp only [Bool.and_eq_true, beq_iff_eq] at hp
  exact ⟨hp.2, hp.1, List.mem_of_find?_eq_some h⟩

lemma findConv_none {cs : List Conversation} {uid : String} {i : Nat}
    (h : ∀ c ∈ cs, c.id = i → c.user_id ≠ uid) :
    findConv cs uid i = none := by
  apply List.find?_eq_none.mpr
  intro c hc
  simp only [Bool.and_eq_true, beq_iff_eq, not_and]
  exact fun hid => h c hc hid

/-- Conversations of owner `B` survive deleting an `A`-owned
conversation. -/
lemma eraseConv_filter_frame {A B : String} (hAB : A ≠ B)
    (c0 : Conversation) (hA : c0.user_id = A) (cs : List Conversation) :
    ((cs.filter (fun u => !decide (u = c0))).filter
        (fun u => u.user_id == B)) =
      cs.filter (fun u => u.user_id == B) := by
  apply filter_filter_frame
  intro u hp
  have hub : u.user_id = B := by simpa using hp
  by_cases hu : u = c0
  · subst hu
    exact absurd (hA.symm.trans hub) hAB
  · simp [hu]

lemma mem_insertCreatedDesc {a t : Todo} :
    ∀ l, a ∈ insertCreatedDesc t l ↔ a = t ∨ a ∈ l := by
  intro l
  induction l with
  | nil => simp [insertCreatedDesc]
  | cons u us ih =>
    unfold insertCreatedDesc
    by_cases h : u.created_at ≤ t.created_at
    · simp [h]
    · simp only [h, if_false, List.mem_cons, ih]
      tauto

lemma mem_sortCreatedDesc {a : Todo} :
    ∀ l, a ∈ sortCreatedDesc l ↔ a ∈ l := by
  intro l
  induction l with
  | nil => simp [sortCreatedDesc]
  | cons u us ih =>
    show a ∈ insertCreatedDesc u (sortCreatedDesc us) ↔ _
    rw [mem_insertCreatedDesc, ih]
    simp

/-! ## C2 — owner isolation -/

/-- C2: owner isolation.  With owners `A ≠ B`: the resolve lookup only
ever yields `A`-owned todos; the list/search tools cannot see `B`'s rows
(their output is unchanged if `B`'s rows are removed); every mutating
tool and mutating todo endpoint leaves `B`'s rows exactly unchanged; the
todo and conversation id endpoints answer only with `A`-owned records
and respond with the single status 404 — not 403 — both when an id does
not exist and when it belongs to another owner; deleting a conversation
never touches `B`'s conversations or the messages of `B`'s
conversations; and the chat endpoints refuse non-owned conversation ids
with 404 and no state change. -/
theorem owner_isolation (st : List Todo) (cs : List Conversation)
    (ms : List MessageRec) (A B ident q title nt msg2 : String)
    (incl : Bool) (body : TodoUpdateBody)
    (ai : Except String (String × List ToolRecord))
    (fs : Except String (List String)) (now newId i fc fm : Nat)
    (hAB : A ≠ B) (hcid : (cs.map Conversation.id).Nodup) :
    (∀ t, resolveTodo st A ident = ResolveOutcome.Resolved t →
      t.user_id = A) ∧
    (∀ l t, resolveTodo st A ident = ResolveOutcome.Ambiguous l →
      t ∈ l → t.user_id = A) ∧
    (list_todos_tool st A incl =
      list_todos_tool (st.filter (fun u => !(u.user_id == B))) A incl) ∧
    (search_todos_tool st A q =
      search_todos_tool (st.filter (fun u => !(u.user_id == B))) A q) ∧
    (∀ t ∈ list_todos_endpoint st A, t.user_id = A) ∧
    (∀ t, get_todo_endpoint st A i = Except.ok t → t.user_id = A) ∧
    ((∀ t ∈ st, t.id = i → t.user_id ≠ A) →
      get_todo_endpoint st A i = Except.error 404 ∧
      update_todo_endpoint st A i body now = Except.error 404 ∧
      delete_todo_endpoint st A i = Except.error 404) ∧
    (((complete_todo_tool st A ident now).2).filter
        (fun u => u.user_id == B) =
      st.filter (fun u => u.user_id == B)) ∧
    (((uncomplete_todo_tool st A ident now).2).filter
        (fun u => u.user_id == B) =
      st.filter (fun u => u.user_id == B)) ∧
    (((delete_todo_tool st A ident).2).filter (fun u => u.user_id == B) =
      st.filter (fun u => u.user_id == B)) ∧
    (((update_todo_tool st A ident nt now).2).filter
        (fun u => u.user_id == B) =
      st.filter (fun u => u.user_id == B)) ∧
    (((delete_completed_todos_tool st A).2).filter
        (fun u => u.user_id == B) =
      st.filter (fun u => u.user_id == B)) ∧
    (((create_todo_tool st A title now newId).2).filter
        (fun u => u.user_id == B) =
      st.filter (fun u => u.user_id == B)) ∧
    (∀ t1 st2, update_todo_endpoint st A i body now =
        Except.ok (t1, st2) →
      t1.user_id = A ∧
        st2.filter (fun u => u.user_id == B) =
          st.filter (fun u => u.user_id == B)) ∧
    (∀ st2, delete_todo_endpoint st A i = Except.ok st2 →
      st2.filter (fun u => u.user_id == B) =
        st.filter (fun u => u.user_id == B)) ∧
    (∀ t st2, create_todo_endpoint st A title now newId =
        Except.ok (t, st2) →
      t.user_id = A ∧
        st2.filter (fun u => u.user_id == B) =
          st.filter (fun u => u.user_id == B)) ∧
    (∀ c ∈ list_conversations_endpoint cs A, c.user_id = A) ∧
    (∀ c hs, get_conversation_endpoint cs ms A i = Except.ok (c, hs) →
      c.user_id = A) ∧
    ((∀ c ∈ cs, c.id = i → c.user_id ≠ A) →
      get_conversation_endpoint cs ms A i = Except.error 404 ∧
      delete_conversation_endpoint cs ms A i = Except.error 404 ∧
      chat_endpoint { convs := cs, msgs := ms } A (some i) msg2 ai now fc
          fm =
        { state := { convs := cs, msgs := ms },
          response := Except.error 404 } ∧
      chat_stream_endpoint { convs := cs, msgs := ms } A (some i) msg2 fs
          now fc fm =
        ({ convs := cs, msgs := ms }, Except.error 404)) ∧
    (∀ cs2 ms2, delete_conversation_endpoint cs ms A i =
        Except.ok (cs2, ms2) →
      cs2.filter (fun u => u.user_id == B) =
          cs.filter (fun u => u.user_id == B) ∧
        ∀ m ∈ ms, (∃ c2 ∈ cs, c2.user_id = B ∧
          c2.id = m.conversation_id) → m ∈ ms2) := by
  refine ⟨?_, ?_, ?_, ?_, ?_, ?_, ?_, complete_tool_frame hAB st ident now,
    uncomplete_tool_frame hAB st ident now,
    delete_tool_frame hAB st ident,
    update_tool_frame hAB st ident nt now,
    delete_completed_tool_frame hAB st,
    create_tool_frame hAB st title now newId, ?_, ?_, ?_, ?_, ?_, ?_, ?_⟩
  · exact fun t h => resolved_user h
  · intro l t h hm
    exact titleSearch_user (((ambiguous_eq h).1 ▸ hm : t ∈ titleSearch st A ident))
  · unfold list_todos_tool
    rw [← filter_filter_frame (fun u => !(u.user_id == B))
      (fun t => t.user_id == A && (incl || !t.completed))
      (fun u hp => by
        have : u.user_id = A := by
          simp only [Bool.and_eq_true, beq_iff_eq] at hp
          exact hp.1
        simp [this, hAB]) st]
  · unfold search_todos_tool
    rw [← filter_filter_frame (fun u => !(u.user_id == B))
      (fun t => t.user_id == A && ciContains t.title q)
      (fun u hp => by
        have : u.user_id = A := by
          simp only [Bool.and_eq_true, beq_iff_eq] at hp
          exact hp.1
        simp [this, hAB]) st]
  · intro t ht
    unfold list_todos_endpoint at ht
    rw [mem_sortCreatedDesc] at ht
    simpa using (List.mem_filter.mp ht).2
  · intro t h
    unfold get_todo_endpoint at h
    rcases hft : findTodo st A i with _ | u <;> rw [hft] at h
    · exact absurd h (by simp)
    · simp only [Except.ok.injEq] at h
      exact h ▸ (findTodo_user hft).1
  · intro h
    have hn := findTodo_none h
    exact ⟨by simp [get_todo_endpoint, hn],
           by simp [update_todo_endpoint, hn],
           by simp [delete_todo_endpoint, hn]⟩
  · intro t1 st2 h
    unfold update_todo_endpoint at h
    rcases hft : findTodo st A i with _ | u <;> rw [hft] at h
    · exact absurd h (by simp)
    · simp only [Except.ok.injEq, Prod.mk.injEq] at h
      obtain ⟨h1, h2⟩ := h
      refine ⟨h1 ▸ (findTodo_user hft).1, h2 ▸ ?_⟩
      exact replaceTodo_filter_frame hAB u
        { u with title := (body.title.map pyStrip).getD u.title,
                 completed := body.completed.getD u.completed,
                 updated_at := now }
        (findTodo_user hft).1 rfl st
  · intro st2 h
    unfold delete_todo_endpoint at h
    rcases hft : findTodo st A i with _ | u <;> rw [hft] at h
    · exact absurd h (by simp)
    · simp only [Except.ok.injEq] at h
      exact h ▸ eraseTodo_filter_frame hAB u (findTodo_user hft).1 st
  · intro t st2 h
    unfold create_todo_endpoint at h
    by_cases hv : todoCreateValid title
    · simp only [hv, if_true, Except.ok.injEq, Prod.mk.injEq] at h
      obtain ⟨h1, h2⟩ := h
      have hb : (A == B) = false := by simp [hAB]
      subst h2
      refine ⟨h1 ▸ rfl, ?_⟩
      simp [List.filter_append, hb]
    · rw [if_neg hv] at h
      exact absurd h (by simp)
  · intro c hc
    unfold list_conversations_endpoint at hc
    simpa using (List.mem_filter.mp hc).2
  · intro c hs h
    unfold get_conversation_endpoint at h
    rcases hfc : findConv cs A i with _ | u <;> rw [hfc] at h
    · exact absurd h (by simp)
    · simp only [Except.ok.injEq, Prod.mk.injEq] at h
      exact h.1 ▸ (findConv_user hfc).1
  · intro h
    have hn := findConv_none h
    exact ⟨by simp [get_conversation_endpoint, hn],
           by simp [delete_conversation_endpoint, hn],
           by simp [chat_endpoint, hn],
           by simp [chat_stream_endpoint, hn]⟩
  · intro cs2 ms2 h
    unfold delete_conversation_endpoint at h
    rcases hfc : findConv cs A i with _ | c <;> rw [hfc] at h
    · exact absurd h (by simp)
    · simp only [Except.ok.injEq, Prod.mk.injEq] at h
      obtain ⟨hcu, hci, hcm⟩ := findConv_user hfc
      obtain ⟨h1, h2⟩ := h
      constructor
      · exact h1 ▸ eraseConv_filter_frame hAB c hcu cs
      · intro m hm hex
        obtain ⟨c2, hc2, hc2B, hc2id⟩ := hex
        subst h2
        apply List.mem_filter.mpr
        refine ⟨hm, ?_⟩
        simp only [Bool.not_eq_true', beq_eq_false_iff_ne, ne_eq]
        intro hmi
        have hceq : c2 = c := List.inj_on_of_nodup_map hcid hc2 hcm
          (by rw [hc2id, hmi, hci])
        rw [hceq] at hc2B
        exact hAB (hcu.symm.trans hc2B)

/-- Witness for C2 on the sample store: owner `A` gets 404 for `B`'s
todo id `3`, and `A` deleting its own todo `2` leaves `B`'s rows
unchanged. -/
theorem owner_isolation_witness :
    get_todo_endpoint demoStore "A" 3 = Except.error 404 ∧
    ((delete_todo_tool demoStore "A" "2").2).filter
        (fun u => u.user_id == "B") =
      demoStore.filter (fun u => u.user_id == "B") := by
  have h := owner_isolation demoStore [] [] "A" "B" "2" "q" "t" "nt" "m"
    true {} (Except.error "e") (Except.error "e") 0 1 3 2 4
    (by decide) (by decide)
  exact ⟨(h.2.2.2.2.2.2.1 (by decide)).1, h.2.2.2.2.2.2.2.2.2.1⟩

end TodoApp
